import Mathlib

/-!
# Verification of the zustand-test counter application

Shallow embedding of the state-management code of the repository:
* the remote counter client (`src/infra/mockapi.ts`, provided as
  `src/unnamed/part_001`): `getCount`, `increaseCount`, `resetCount`;
* the `apiStore` remote actions (`src/app/page.tsx`): `get`, `increase`,
  `reset`;
* the state container, persistence wrapper and selector deriver contracts
  (the `zustand` library and `createSelectors` from `src/lib/utils` are not
  part of the repository sources; they are modelled from the specification).

JavaScript dynamic values are modelled by the inductive type `JsVal`;
machine reals of JavaScript are modelled by `Int` (all counter arithmetic in
the claims is small-integer arithmetic, far below the 2^53 exactness bound
of IEEE doubles).
-/

namespace ZustandTest

/-- A JavaScript runtime value, as far as this code base manipulates them:
`null`, `undefined`, `NaN`, numbers, booleans, strings and plain objects
(ordered field lists). -/
inductive JsVal where
  | null
  | undef
  | nan
  | num (n : Int)
  | bool (b : Bool)
  | str (s : String)
  | obj (fields : List (String × JsVal))

/-- First-match lookup in an association list keyed by strings (JS property
read order: the first binding for a key is authoritative because our
`setKey` keeps at most the first occurrence up to date). -/
def lookupKey {α : Type} : List (String × α) → String → Option α
  | [], _ => none
  | (k', v) :: rest, k => if k' = k then some v else lookupKey rest k

/-- Update the first binding of `k` in place, or append a new binding
(JS property write `o[k] = v` on an object with unique keys). -/
def setKey {α : Type} : List (String × α) → String → α → List (String × α)
  | [], k, v => [(k, v)]
  | (k', v') :: rest, k, v =>
      if k' = k then (k, v) :: rest else (k', v') :: setKey rest k v

/-- Last-match lookup; coincides with `lookupKey` on lists without
duplicate keys (i.e. on faithful images of JS objects). -/
def lookupKeyLast {α : Type} : List (String × α) → String → Option α
  | [], _ => none
  | (k', v') :: rest, k =>
      match lookupKeyLast rest k with
      | some v => some v
      | none => if k' = k then some v' else none

/-- `true` when the list binds the key. -/
def hasKey {α : Type} (l : List (String × α)) (k : String) : Bool :=
  (lookupKey l k).isSome

/-- `true` when no key is bound twice (every JS object satisfies this). -/
def keysNodup {α : Type} : List (String × α) → Bool
  | [] => true
  | (k, _) :: rest => !hasKey rest k && keysNodup rest

/-- The value part of the state of a store: a record of data fields. The action
closures stored alongside the data in the zustand stores are fixed at
construction and never change, so the data record carries the whole mutable
state. -/
abbrev StateRec := List (String × JsVal)

/-- JS property access `s[k]`: `undefined` when the field is absent. -/
def lookupField (s : StateRec) (k : String) : JsVal :=
  (lookupKey s k).getD JsVal.undef

/-- JS nullish coalescing `v ?? d`. -/
def jsNullish (v d : JsVal) : JsVal :=
  match v with
  | JsVal.null => d
  | JsVal.undef => d
  | x => x

/-- `true` exactly when `v` is `null` or `undefined`. -/
def jsIsNullish (v : JsVal) : Bool :=
  match v with
  | JsVal.null => true
  | JsVal.undef => true
  | _ => false

/-- JS `v + 1` as it appears in the increase actions. The numeric case is
the only one the verified stores ever reach; the other cases follow the JS
coercion rules (`null + 1 = 1`, `true + 1 = 2`, string concatenation with
`"1"`, `undefined + 1 = NaN`, `NaN + 1 = NaN`). -/
def jsAddOne (v : JsVal) : JsVal :=
  match v with
  | JsVal.num n => JsVal.num (n + 1)
  | JsVal.null => JsVal.num 1
  | JsVal.bool b => JsVal.num (if b then 2 else 1)
  | JsVal.str s => JsVal.str (s ++ "1")
  | JsVal.obj _ => JsVal.str "[object Object]1"
  | JsVal.undef => JsVal.nan
  | JsVal.nan => JsVal.nan

/-- `typeof v` equals `"string"`. -/
def isString : JsVal → Bool
  | JsVal.str _ => true
  | _ => false

/-- `typeof v` equals `"number"` (`NaN` is a number in JS). -/
def isNumber : JsVal → Bool
  | JsVal.num _ => true
  | JsVal.nan => true
  | _ => false

/-! ## Remote counter client (`src/unnamed/part_001`) -/

inductive HttpMethod where
  | GET
  | PUT

/-- An outgoing `fetch` request: url, method, headers and JSON body (the
source builds the body with `JSON.stringify` of the given value). -/
structure Request where
  url : String
  method : HttpMethod
  headers : List (String × String)
  body : Option JsVal

/-- What the transport reports back for one request: either the fetch
promise rejects (network failure), or a response arrives whose body parses
to the given JSON value (`none` when `res.json()` rejects because the body
is not valid JSON). -/
inductive FetchOutcome where
  | transportError
  | response (body : Option JsVal)

/-- A server/transport model: the answer of the environment to each request. -/
abbrev Server := Request → FetchOutcome

/-- Outcome of one of the client promises. -/
inductive JsPromise (α : Type) where
  | resolved (a : α)
  | fetchRejected
  | jsonRejected
  | typeErrorRejected

def API_URL : String := "https://66bd590b74dfc195586c67d0.mockapi.io/"

/-- The template literal from the source. `API_URL` ends in a slash, so the
resulting url carries a double slash, faithfully reproduced. -/
def countUrl (id : String) : String := API_URL ++ "/count/" ++ id

def getCountRequest (id : String) : Request :=
  { url := countUrl id, method := HttpMethod.GET, headers := [], body := none }

def increaseCountRequest (id : String) (curr : Int) : Request :=
  { url := countUrl id
    method := HttpMethod.PUT
    headers := [("Content-Type", "application/json")]
    body := some (JsVal.obj [("value", JsVal.num (curr + 1))]) }

def resetCountRequest (id : String) : Request :=
  { url := countUrl id
    method := HttpMethod.PUT
    headers := [("Content-Type", "application/json")]
    body := some (JsVal.obj [("value", JsVal.num 0)]) }

/-- The request `increaseCount` sends when called with `curr = NaN`
(`JSON.stringify` renders `NaN` as `null`). -/
def increaseCountRequestNaN (id : String) : Request :=
  { url := countUrl id
    method := HttpMethod.PUT
    headers := [("Content-Type", "application/json")]
    body := some (JsVal.obj [("value", JsVal.null)]) }

/-- The common continuation `.then((res) => res.json()).then(({value}) =>
value as number)`. Destructuring `{value}` from `null` throws a
`TypeError`; from a non-object primitive it yields `undefined`; the `as
number` cast performs no runtime check whatsoever. -/
def thenJsonValue (out : FetchOutcome) : JsPromise JsVal :=
  match out with
  | FetchOutcome.transportError => JsPromise.fetchRejected
  | FetchOutcome.response none => JsPromise.jsonRejected
  | FetchOutcome.response (some body) =>
      match body with
      | JsVal.null => JsPromise.typeErrorRejected
      | JsVal.undef => JsPromise.typeErrorRejected
      | JsVal.obj fields => JsPromise.resolved (lookupField fields "value")
      | _ => JsPromise.resolved JsVal.undef

/-- `getCount` from the source. -/
def getCount (server : Server) (id : String) : JsPromise JsVal :=
  thenJsonValue (server (getCountRequest id))

/-- `increaseCount` from the source: PUT with body `{value: curr + 1}`. -/
def increaseCount (server : Server) (id : String) (curr : Int) : JsPromise JsVal :=
  thenJsonValue (server (increaseCountRequest id curr))

/-- `resetCount` from the source: PUT with body `{value: 0}`. -/
def resetCount (server : Server) (id : String) : JsPromise JsVal :=
  thenJsonValue (server (resetCountRequest id))

/-! ## The `apiStore` remote actions (`src/app/page.tsx`, lines 65-112)

The data part of the `apiStore` state is the single field `count`; the
action closures are fixed at construction. Each action is modelled as a
function from the server model, the JS argument values and the current
`count` to the outcome of the action paired with the `count` afterwards. -/

/-- Outcome of awaiting one `apiStore` action. -/
inductive ApiOutcome where
  | resolved
  | errorThrown (msg : String)
  | networkError
  | jsonError
  | typeError

/-- Rendering of the bare function object `JSON.stringify` when coerced to
a string by `+` (the V8 rendering, which the deployed runtime uses). -/
def jsonStringifyFnText : String := "function stringify() \x7b [native code] \x7d"

/-- The message of the error thrown by `apiStore.increase` on invalid
arguments: the source concatenates the `JSON.stringify` function object
itself, not a serialization of the `errors` array. -/
def increaseFailMsg : String :=
  "Failed to increase API count: " ++ jsonStringifyFnText

/-- The `errors` array built by `apiStore.increase` on the invalid path
(lines 89-95); it is never used afterwards. -/
def increaseValidationErrors (id curr : JsVal) : List String :=
  (if isString id then [] else ["Invalid id input."])
    ++ (if isNumber curr then [] else ["Invalid current value input."])

/-- Map a rejected client promise to the action outcome it propagates to
the awaiting caller. Only applied to non-`resolved` promises. -/
def propagateRejection (p : JsPromise JsVal) : ApiOutcome :=
  match p with
  | JsPromise.resolved _ => ApiOutcome.resolved
  | JsPromise.fetchRejected => ApiOutcome.networkError
  | JsPromise.jsonRejected => ApiOutcome.jsonError
  | JsPromise.typeErrorRejected => ApiOutcome.typeError

/-- `apiStore.get`: on a string id, awaits `getCount` and then
`set(() => ({count: count ?? 0}))`; otherwise throws before any `set`.
A rejection of `getCount` propagates and `set` is never reached. -/
def apiGet (server : Server) (id : JsVal) (count₀ : JsVal) : ApiOutcome × JsVal :=
  match id with
  | JsVal.str s =>
      match getCount server s with
      | JsPromise.resolved v => (ApiOutcome.resolved, jsNullish v (JsVal.num 0))
      | p => (propagateRejection p, count₀)
  | _ => (ApiOutcome.errorThrown "Passed invalid id to count API on get.", count₀)

/-- `apiStore.increase`: on a string id and numeric curr, awaits
`increaseCount` and then `set((state) => ({count: count ?? state.count + 1}))`;
otherwise builds the (unused) `errors` array and throws
the string literal `"Failed to increase API count: "` concatenated with `JSON.stringify`. -/
def apiIncrease (server : Server) (id curr : JsVal) (count₀ : JsVal) :
    ApiOutcome × JsVal :=
  match id, curr with
  | JsVal.str s, JsVal.num c =>
      match increaseCount server s c with
      | JsPromise.resolved v => (ApiOutcome.resolved, jsNullish v (jsAddOne count₀))
      | p => (propagateRejection p, count₀)
  | JsVal.str s, JsVal.nan =>
      -- `typeof NaN` equals `"number"`, so the call proceeds; `JSON.stringify`
      -- renders `NaN + 1` (still `NaN`) as `null` in the request body.
      match thenJsonValue (server (increaseCountRequestNaN s)) with
      | JsPromise.resolved v => (ApiOutcome.resolved, jsNullish v (jsAddOne count₀))
      | p => (propagateRejection p, count₀)
  | _, _ => (ApiOutcome.errorThrown increaseFailMsg, count₀)

/-- `apiStore.reset`: on a string id, awaits `resetCount` and then
`set(() => ({count: 0}))`; otherwise throws before any `set`. -/
def apiReset (server : Server) (id : JsVal) (count₀ : JsVal) : ApiOutcome × JsVal :=
  match id with
  | JsVal.str s =>
      match resetCount server s with
      | JsPromise.resolved _ => (ApiOutcome.resolved, JsVal.num 0)
      | p => (propagateRejection p, count₀)
  | _ => (ApiOutcome.errorThrown "Passed invalid id to count API on reset.", count₀)

/-! ## State container (spec §4.1)

Modelled from the spec: the `create`/`set`/`get` contract of the `zustand`
state container; the source of the library is not part of this repository. A
`set` call accepts either a partial record to shallow-merge into the
current value, or a function from the current value to a partial record;
it merges and then notifies every subscriber with the new value. -/

/-- The argument of one `set` call: a partial record, or a function from
the current value to a partial record. -/
inductive SetArg where
  | part (p : StateRec)
  | fn (f : StateRec → StateRec)

/-- Resolve a `set` argument against the current value. -/
def resolveSetArg (arg : SetArg) (s : StateRec) : StateRec :=
  match arg with
  | SetArg.part p => p
  | SetArg.fn f => f s

/-- `Object.assign({}, s, p)`: every binding of `p`, in order, written over
`s`; later bindings for the same key win. -/
def shallowMerge : StateRec → StateRec → StateRec
  | s, [] => s
  | s, (k, v) :: rest => shallowMerge (setKey s k v) rest

/-- One shallow-merge step of the fold the spec describes: resolve the
argument against the current value, then merge. -/
def applyMerge (s : StateRec) (arg : SetArg) : StateRec :=
  shallowMerge s (resolveSetArg arg s)

/-- Modelled from the spec: a State Container holds the current value and
(for observability) the ordered list of values its subscribers were
notified with. -/
structure Store where
  state : StateRec
  notified : List StateRec

/-- `create(initializer)`: fresh container holding the value produced by the initializer. -/
def createStore (init : StateRec) : Store :=
  { state := init, notified := [] }

/-- `set(partialOrFn)`: merge, then notify all subscribers with the new
value. -/
def storeSet (st : Store) (arg : SetArg) : Store :=
  let next := applyMerge st.state arg
  { state := next, notified := st.notified ++ [next] }

/-- `get()`: the current value. -/
def storeGet (st : Store) : StateRec := st.state

/-! ## Persistence wrapper (spec §4.3)

Modelled from the spec: the `persist` middleware used by `middlewareStore`
and `apiStore`; the source of the library is not part of this repository.
Durable storage maps keys to stored blobs; a blob is either a well-formed
serialized snapshot of a state record or a malformed string that does not
parse as JSON. -/

/-- A blob held in durable storage under some key. -/
inductive StoredVal where
  | snap (s : StateRec)
  | malformed (raw : String)

abbrev Storage := List (String × StoredVal)

/-- Deserialization: a well-formed snapshot parses back to its state; a
malformed blob does not parse. -/
def parseSnapshot : StoredVal → Option StateRec
  | StoredVal.snap s => some s
  | StoredVal.malformed _ => none

/-- A persisted Store: its storage key and its in-memory value. -/
structure PersistedStore where
  key : String
  state : StateRec

/-- The rehydration step: if a stored blob is present and parses, its
snapshot is shallow-merged over the initializer value; otherwise (absent
or malformed, treated alike, no exception) the initializer value is used
as-is. -/
def rehydrate (init : StateRec) (stored : Option StoredVal) : StateRec :=
  match stored with
  | some sv =>
      match parseSnapshot sv with
      | some snap => shallowMerge init snap
      | none => init
  | none => init

/-- Modelled from the spec: constructing a persisted Store reads the blob
under its key and rehydrates over the initializer value. -/
def createPersisted (key : String) (init : StateRec) (storage : Storage) :
    PersistedStore :=
  { key := key, state := rehydrate init (lookupKey storage key) }

/-- Modelled from the spec: a `set` on a persisted Store merges in memory
and then writes the serialized full current value to durable storage under
its key. -/
def persistedSet (ps : PersistedStore) (storage : Storage) (arg : SetArg) :
    PersistedStore × Storage :=
  let next := applyMerge ps.state arg
  ({ ps with state := next }, setKey storage ps.key (StoredVal.snap next))

/-- `true` when every well-formed snapshot held in storage has unique keys
(every snapshot produced by serializing a JS object does). -/
def storageWF : Storage → Bool
  | [] => true
  | (_, StoredVal.snap s) :: rest => keysNodup s && storageWF rest
  | (_, StoredVal.malformed _) :: rest => storageWF rest

/-! ## Selector deriver (spec §4.5)

Modelled from the spec: `createSelectors` from `src/lib/utils` (file not
under the provided sources). For every key of the value of the store it derives
a zero-argument accessor bound to that key; an accessor always reads the
current value of the store at call time. -/

/-- The accessor derived for one key: reads the given field of whatever
the value of the store is at call time. -/
def selectorFor (k : String) : StateRec → JsVal :=
  fun s => lookupField s k

/-- `createSelectors`: one accessor per key of the value of the store. -/
def createSelectors (keys : List String) : List (String × (StateRec → JsVal)) :=
  keys.map (fun k => (k, selectorFor k))

/-- Invoke the derived accessor for `k` against the current value of the store. -/
def useSelector (sels : List (String × (StateRec → JsVal))) (k : String)
    (st : Store) : JsVal :=
  match lookupKey sels k with
  | some f => f st.state
  | none => JsVal.undef

/-! ## The local `useStore` (`src/app/page.tsx`, lines 33-38) -/

/-- The initial data record: `\x7bcount: 0\x7d`. -/
def useStoreInit : StateRec := [("count", JsVal.num 0)]

/-- `increase: () => set((state) => ({count: state.count + 1}))`. -/
def useStoreIncrease : SetArg :=
  SetArg.fn (fun s => [("count", jsAddOne (lookupField s "count"))])

/-- `reset: () => set({count: 0})`. -/
def useStoreReset : SetArg := SetArg.part [("count", JsVal.num 0)]

/-- `setCount: (newCount) => set({count: newCount})`. -/
def useStoreSetCount (n : Int) : SetArg := SetArg.part [("count", JsVal.num n)]

/-! ## String containment (for the error-message claims) -/

/-- `pat` is a prefix of `s` (over character lists). -/
def listStartsWith : List Char → List Char → Bool
  | [], _ => true
  | _ :: _, [] => false
  | a :: as, b :: bs => a = b && listStartsWith as bs

/-- `pat` occurs somewhere inside `s` (over character lists). -/
def listContainsSub (pat : List Char) : List Char → Bool
  | [] => listStartsWith pat []
  | c :: rest => listStartsWith pat (c :: rest) || listContainsSub pat rest

/-- `pat` occurs as a substring of `s`. -/
def strContainsSub (s pat : String) : Bool :=
  listContainsSub pat.data s.data

/-! ## Concrete server models used as witnesses and counterexamples -/

/-- A mock server answering every request with `{"value": 3}`; in
particular it echoes `{"value": 3}` to `PUT /count/1` with body
`{"value": 3}`. -/
def mockServer3 : Server := fun _ =>
  FetchOutcome.response (some (JsVal.obj [("value", JsVal.num 3)]))

/-- A transport that fails every request (the fetch promise rejects). -/
def failServer : Server := fun _ => FetchOutcome.transportError

/-- A server answering every request with a body that is not valid JSON. -/
def badJsonServer : Server := fun _ => FetchOutcome.response none

/-- A server answering every request with the JSON object `{}` (no `value`
field). -/
def emptyObjServer : Server := fun _ =>
  FetchOutcome.response (some (JsVal.obj []))

/-- A server answering every request with `{"value": "abc"}`. -/
def strValueServer : Server := fun _ =>
  FetchOutcome.response (some (JsVal.obj [("value", JsVal.str "abc")]))

/-! ## Association-list lemmas -/

theorem lookupKey_setKey {α : Type} (l : List (String × α)) (k k' : String) (v : α) :
    lookupKey (setKey l k v) k' = if k = k' then some v else lookupKey l k' := by
  induction l with
  | nil => simp [setKey, lookupKey]
  | cons hd tl ih =>
      obtain ⟨k₀, v₀⟩ := hd
      by_cases h : k₀ = k
      · subst h
        by_cases h' : k₀ = k'
        · subst h'
          simp [setKey, lookupKey]
        · simp [setKey, lookupKey, h']
      · by_cases h' : k₀ = k'
        · subst h'
          simp [setKey, lookupKey, h, Ne.symm h]
        · simp [setKey, lookupKey, h, h', ih]

theorem lookupKeyLast_of_lookupKey_none {α : Type} (l : List (String × α))
    (k : String) (h : lookupKey l k = none) : lookupKeyLast l k = none := by
  induction l with
  | nil => simp [lookupKeyLast]
  | cons hd tl ih =>
      obtain ⟨k₀, v₀⟩ := hd
      by_cases hk : k₀ = k
      · simp [lookupKey, hk] at h
      · simp [lookupKey, hk] at h
        simp [lookupKeyLast, hk, ih h]

theorem lookupKeyLast_setKey {α : Type} (l : List (String × α)) (k : String)
    (v : α) (h : keysNodup l = true) : lookupKeyLast (setKey l k v) k = some v := by
  induction l with
  | nil => simp [setKey, lookupKeyLast]
  | cons hd tl ih =>
      obtain ⟨k₀, v₀⟩ := hd
      simp only [keysNodup, Bool.and_eq_true, Bool.not_eq_true'] at h
      by_cases hk : k₀ = k
      · subst hk
        have h3 : lookupKey tl k₀ = none := by
          cases hx : lookupKey tl k₀ with
          | none => rfl
          | some w => simp [hasKey, hx] at h
        simp [setKey, lookupKeyLast, lookupKeyLast_of_lookupKey_none tl k₀ h3]
      · simp [setKey, lookupKeyLast, hk, ih h.2]

theorem hasKey_setKey {α : Type} (l : List (String × α)) (k k' : String) (v : α) :
    hasKey (setKey l k v) k' = if k = k' then true else hasKey l k' := by
  by_cases h : k = k' <;> simp [hasKey, lookupKey_setKey, h]

theorem keysNodup_setKey {α : Type} (l : List (String × α)) (k : String) (v : α)
    (h : keysNodup l = true) : keysNodup (setKey l k v) = true := by
  induction l with
  | nil => simp [setKey, keysNodup, hasKey, lookupKey]
  | cons hd tl ih =>
      obtain ⟨k₀, v₀⟩ := hd
      simp only [keysNodup, Bool.and_eq_true, Bool.not_eq_true'] at h
      by_cases hk : k₀ = k
      · subst hk
        simp [setKey, keysNodup, Bool.and_eq_true, Bool.not_eq_true', h.1, h.2]
      · simp only [setKey, if_neg hk, keysNodup, Bool.and_eq_true,
          Bool.not_eq_true', hasKey_setKey, if_neg (Ne.symm hk)]
        exact ⟨h.1, ih h.2⟩

theorem keysNodup_shallowMerge (p : StateRec) : ∀ s : StateRec,
    keysNodup s = true → keysNodup (shallowMerge s p) = true := by
  induction p with
  | nil => intro s h; simpa [shallowMerge] using h
  | cons hd tl ih =>
      intro s h
      obtain ⟨k, v⟩ := hd
      simpa [shallowMerge] using ih (setKey s k v) (keysNodup_setKey s k v h)

theorem lookupKey_shallowMerge (p : StateRec) : ∀ (s : StateRec) (k : String),
    lookupKey (shallowMerge s p) k =
      match lookupKeyLast p k with
      | some v => some v
      | none => lookupKey s k := by
  induction p with
  | nil => intro s k; simp [shallowMerge, lookupKeyLast]
  | cons hd tl ih =>
      intro s k
      obtain ⟨k₀, v₀⟩ := hd
      rw [shallowMerge, ih]
      cases hx : lookupKeyLast tl k with
      | some v => simp [lookupKeyLast, hx]
      | none =>
          by_cases hk : k₀ = k
          · subst hk
            simp [lookupKeyLast, hx, lookupKey_setKey]
          · simp [lookupKeyLast, hx, hk, lookupKey_setKey, Ne.symm hk]

theorem keysNodup_rehydrate (init : StateRec) (x : Option StoredVal)
    (h : keysNodup init = true) : keysNodup (rehydrate init x) = true := by
  cases x with
  | none => exact h
  | some sv =>
      cases sv with
      | snap s₀ => exact keysNodup_shallowMerge s₀ init h
      | malformed raw => exact h

theorem storeSet_foldl_state (args : List SetArg) : ∀ st : Store,
    (args.foldl storeSet st).state = args.foldl applyMerge st.state := by
  induction args with
  | nil => intro st; rfl
  | cons a rest ih =>
      intro st
      simpa [storeSet] using ih (storeSet st a)

/-! ## Claim theorems -/

/-- C1: `increaseCount(id, curr)` issues a PUT whose body carries
`curr + 1`, and resolves to the numeric value the server reports back in
its response, whatever that value is — not to the local guess `curr + 1`. -/
theorem increaseCount_puts_succ_and_returns_server_value
    (id : String) (curr n : Int) (server : Server)
    (h : server (increaseCountRequest id curr) =
      FetchOutcome.response (some (JsVal.obj [("value", JsVal.num n)]))) :
    (increaseCountRequest id curr).method = HttpMethod.PUT ∧
    (increaseCountRequest id curr).body =
      some (JsVal.obj [("value", JsVal.num (curr + 1))]) ∧
    increaseCount server id curr = JsPromise.resolved (JsVal.num n) := by
  refine ⟨rfl, rfl, ?_⟩
  simp [increaseCount, h, thenJsonValue, lookupField, lookupKey]

/-- C1 witness: with the mock server echoing `{"value": 3}` for
`PUT /count/1` with body `{"value": 3}`, `increaseCount("1", 2)` resolves
to 3. -/
theorem increaseCount_witness :
    mockServer3 (increaseCountRequest "1" 2) =
      FetchOutcome.response (some (JsVal.obj [("value", JsVal.num 3)])) ∧
    ((increaseCountRequest "1" 2).method = HttpMethod.PUT ∧
     (increaseCountRequest "1" 2).body =
       some (JsVal.obj [("value", JsVal.num (2 + 1))]) ∧
     increaseCount mockServer3 "1" 2 = JsPromise.resolved (JsVal.num 3)) :=
  ⟨rfl, increaseCount_puts_succ_and_returns_server_value "1" 2 3 mockServer3 rfl⟩

/-- C2: when the transport fails during `apiStore.get("1")`, the operation
rejects with the propagated network error and the `count` field is exactly
what it was before the call — `set` is never invoked. -/
theorem apiGet_transport_failure_rejects_and_preserves_count
    (server : Server) (c : JsVal)
    (h : server (getCountRequest "1") = FetchOutcome.transportError) :
    apiGet server (JsVal.str "1") c = (ApiOutcome.networkError, c) := by
  simp [apiGet, getCount, h, thenJsonValue, propagateRejection]

/-- C2 witness: the failing transport at `count = 5`. -/
theorem apiGet_transport_failure_witness :
    failServer (getCountRequest "1") = FetchOutcome.transportError ∧
    apiGet failServer (JsVal.str "1") (JsVal.num 5) =
      (ApiOutcome.networkError, JsVal.num 5) :=
  ⟨rfl, apiGet_transport_failure_rejects_and_preserves_count failServer
    (JsVal.num 5) rfl⟩

/-- C3: on a fresh Store, `get()` after any finite sequence of `set` calls
(each a partial record or a function from the current value to one) equals
the left-fold of shallow merges of those partials over the sequence,
starting from the initializer value. -/
theorem storeGet_after_sets_eq_foldl_merges (init : StateRec) (args : List SetArg) :
    storeGet (args.foldl storeSet (createStore init)) = args.foldl applyMerge init :=
  storeSet_foldl_state args (createStore init)

/-- C4: every remote action of `apiStore` called with an invalid argument
(a non-string id; for `increase` also a non-number curr) throws before any
`set`, so the `count` value is completely unchanged. -/
theorem api_actions_invalid_args_throw_and_preserve_count
    (server : Server) (id curr c : JsVal) :
    (isString id = false →
      apiGet server id c =
        (ApiOutcome.errorThrown "Passed invalid id to count API on get.", c)) ∧
    (isString id = false →
      apiReset server id c =
        (ApiOutcome.errorThrown "Passed invalid id to count API on reset.", c)) ∧
    (isString id = false ∨ isNumber curr = false →
      apiIncrease server id curr c = (ApiOutcome.errorThrown increaseFailMsg, c)) := by
  refine ⟨?_, ?_, ?_⟩ <;> intro h
  · cases id <;> simp_all [apiGet, isString]
  · cases id <;> simp_all [apiReset, isString]
  · cases id <;> cases curr <;> simp_all [apiIncrease, isString, isNumber]

/-- C4 witness: a `null` id and a string curr at `count = 9`. -/
theorem api_actions_invalid_args_witness :
    isString JsVal.null = false ∧
    isNumber (JsVal.str "x") = false ∧
    apiGet failServer JsVal.null (JsVal.num 9) =
      (ApiOutcome.errorThrown "Passed invalid id to count API on get.", JsVal.num 9) ∧
    apiReset failServer JsVal.null (JsVal.num 9) =
      (ApiOutcome.errorThrown "Passed invalid id to count API on reset.", JsVal.num 9) ∧
    apiIncrease failServer JsVal.null (JsVal.str "x") (JsVal.num 9) =
      (ApiOutcome.errorThrown increaseFailMsg, JsVal.num 9) :=
  ⟨rfl, rfl,
   (api_actions_invalid_args_throw_and_preserve_count failServer JsVal.null
     (JsVal.str "x") (JsVal.num 9)).1 rfl,
   (api_actions_invalid_args_throw_and_preserve_count failServer JsVal.null
     (JsVal.str "x") (JsVal.num 9)).2.1 rfl,
   (api_actions_invalid_args_throw_and_preserve_count failServer JsVal.null
     (JsVal.str "x") (JsVal.num 9)).2.2 (Or.inl rfl)⟩

/-- C5 counterexample: against a server answering `200 {}`, `getCount("1")`
resolves successfully with `undefined` — a missing, non-numeric value —
so the claim that it never resolves with a non-numeric or missing value is
false; the code performs no shape check and has no NotFound kind. -/
theorem getCount_resolves_with_missing_value :
    getCount emptyObjServer "1" = JsPromise.resolved JsVal.undef ∧
    isNumber JsVal.undef = false :=
  ⟨rfl, rfl⟩

/-- C5 amended: `getCount(id)` rejects with the propagated transport error
when the fetch fails, rejects with a parse error when the body is not
valid JSON, and on any JSON-object response resolves with whatever the
`value` field holds — `undefined` when absent, with no runtime numeric
check and no NotFound discrimination. -/
theorem getCount_outcomes (server : Server) (id : String) :
    (server (getCountRequest id) = FetchOutcome.transportError →
      getCount server id = JsPromise.fetchRejected) ∧
    (server (getCountRequest id) = FetchOutcome.response none →
      getCount server id = JsPromise.jsonRejected) ∧
    (∀ fields,
      server (getCountRequest id) = FetchOutcome.response (some (JsVal.obj fields)) →
      getCount server id = JsPromise.resolved (lookupField fields "value")) := by
  refine ⟨?_, ?_, ?_⟩
  · intro h; simp [getCount, h, thenJsonValue]
  · intro h; simp [getCount, h, thenJsonValue]
  · intro fields h; simp [getCount, h, thenJsonValue]

/-- C5 witness: each outcome realized by a concrete server. -/
theorem getCount_outcomes_witness :
    getCount failServer "1" = JsPromise.fetchRejected ∧
    getCount badJsonServer "1" = JsPromise.jsonRejected ∧
    getCount emptyObjServer "1" = JsPromise.resolved (lookupField [] "value") :=
  ⟨(getCount_outcomes failServer "1").1 rfl,
   (getCount_outcomes badJsonServer "1").2.1 rfl,
   (getCount_outcomes emptyObjServer "1").2.2 [] rfl⟩

/-- C6: constructing a persisted Store under key `k`, calling
`set({count: 7})`, and constructing a second persisted Store under the
same key yields an initial `count` of 7: the snapshot written after the
`set` rehydrates the second store, whatever its own initializer holds. -/
theorem persisted_roundtrip (k : String) (st : Storage) (init₁ init₂ : StateRec)
    (h₁ : keysNodup init₁ = true) :
    lookupField
      (createPersisted k init₂
        (persistedSet (createPersisted k init₁ st) st
          (SetArg.part [("count", JsVal.num 7)])).2).state "count" = JsVal.num 7 := by
  have hnod : keysNodup (createPersisted k init₁ st).state = true :=
    keysNodup_rehydrate init₁ (lookupKey st k) h₁
  have hlast :
      lookupKeyLast
        (setKey (createPersisted k init₁ st).state "count" (JsVal.num 7))
        "count" = some (JsVal.num 7) :=
    lookupKeyLast_setKey _ "count" (JsVal.num 7) hnod
  have h2 : (persistedSet (createPersisted k init₁ st) st
        (SetArg.part [("count", JsVal.num 7)])).2
      = setKey st k (StoredVal.snap
          (setKey (createPersisted k init₁ st).state "count" (JsVal.num 7))) := rfl
  rw [h2]
  have h3 : (createPersisted k init₂ (setKey st k (StoredVal.snap
        (setKey (createPersisted k init₁ st).state "count" (JsVal.num 7))))).state
      = shallowMerge init₂
          (setKey (createPersisted k init₁ st).state "count" (JsVal.num 7)) := by
    simp [createPersisted, rehydrate, lookupKey_setKey, parseSnapshot]
  rw [h3]
  simp only [lookupField]
  rw [lookupKey_shallowMerge, hlast]
  rfl

/-- C6 witness: the round-trip through an empty storage with the
initializer `{count: 0}` of the source stores. -/
theorem persisted_roundtrip_witness :
    keysNodup [("count", JsVal.num 0)] = true ∧
    lookupField
      (createPersisted "k" [("count", JsVal.num 0)]
        (persistedSet (createPersisted "k" [("count", JsVal.num 0)] [])
          [] (SetArg.part [("count", JsVal.num 7)])).2).state "count" = JsVal.num 7 :=
  ⟨rfl, persisted_roundtrip "k" [] [("count", JsVal.num 0)]
    [("count", JsVal.num 0)] rfl⟩

/-- C7: a malformed blob under key `k` is treated as an absent snapshot:
constructing a persisted Store under `k` is total (nothing is thrown) and
its initial value is exactly the declared initializer value. -/
theorem persisted_malformed_falls_back_to_init
    (k raw : String) (init : StateRec) (st : Storage) :
    (createPersisted k init (setKey st k (StoredVal.malformed raw))).state = init := by
  simp [createPersisted, rehydrate, lookupKey_setKey, parseSnapshot]

/-- C8: the derived accessor for `count` reads 0 from the fresh store with
value `{count: 0}` and reads 1 immediately after the increase action sets
`count` to 1: it reads the current value, not a stale copy. -/
theorem selector_reads_current_count :
    useSelector (createSelectors ["count"]) "count" (createStore useStoreInit) =
      JsVal.num 0 ∧
    useSelector (createSelectors ["count"]) "count"
      (storeSet (createStore useStoreInit) useStoreIncrease) = JsVal.num 1 :=
  ⟨rfl, rfl⟩

/-- C9: whenever `apiStore.increase` is called with a non-string id or a
non-number curr, the rejection message is the fixed string
`"Failed to increase API count: "` concatenated with the textual rendering
of the `JSON.stringify` function object itself; neither message collected
in the local `errors` array ever appears in it, regardless of which
argument was invalid. -/
theorem apiIncrease_invalid_error_message
    (server : Server) (id curr c : JsVal)
    (h : isString id = false ∨ isNumber curr = false) :
    apiIncrease server id curr c = (ApiOutcome.errorThrown increaseFailMsg, c) ∧
    increaseFailMsg = "Failed to increase API count: " ++ jsonStringifyFnText ∧
    strContainsSub increaseFailMsg "Invalid id input." = false ∧
    strContainsSub increaseFailMsg "Invalid current value input." = false ∧
    ∀ m ∈ increaseValidationErrors id curr,
      strContainsSub increaseFailMsg m = false := by
  refine ⟨?_, rfl, by decide, by decide, ?_⟩
  · cases id <;> cases curr <;> simp_all [apiIncrease, isString, isNumber]
  · intro m hm
    have hm' : m = "Invalid id input." ∨ m = "Invalid current value input." := by
      unfold increaseValidationErrors at hm
      rcases List.mem_append.mp hm with h1 | h1
      · left
        split at h1
        · simp at h1
        · simpa using h1
      · right
        split at h1
        · simp at h1
        · simpa using h1
    rcases hm' with rfl | rfl
    · decide
    · decide

/-- C9 witness: a numeric id and a string curr. -/
theorem apiIncrease_invalid_error_message_witness :
    (isString (JsVal.num 1) = false ∨ isNumber (JsVal.str "x") = false) ∧
    apiIncrease failServer (JsVal.num 1) (JsVal.str "x") (JsVal.num 0) =
      (ApiOutcome.errorThrown increaseFailMsg, JsVal.num 0) ∧
    strContainsSub increaseFailMsg "Invalid id input." = false :=
  ⟨Or.inl rfl,
   (apiIncrease_invalid_error_message failServer (JsVal.num 1) (JsVal.str "x")
     (JsVal.num 0) (Or.inl rfl)).1,
   (apiIncrease_invalid_error_message failServer (JsVal.num 1) (JsVal.str "x")
     (JsVal.num 0) (Or.inl rfl)).2.2.1⟩

/-- C10 counterexample: against a server answering `{"value": "abc"}`,
`apiStore.get("1")` resolves and leaves `count` equal to the string
`"abc"`, so after a resolved operation `count` is not always a number. -/
theorem apiGet_can_leave_non_number_count :
    apiGet strValueServer (JsVal.str "1") (JsVal.num 0) =
      (ApiOutcome.resolved, JsVal.str "abc") ∧
    isNumber (JsVal.str "abc") = false :=
  ⟨rfl, rfl⟩

/-- C10 amended: when `apiStore.get(id)` resolves, `count` equals the
server-reported value if that value is neither null nor undefined, and 0
otherwise; when `apiStore.increase(id, curr)` resolves with previous count
`prev`, `count` equals the server-reported value if non-nullish and
`prev + 1` otherwise. In both cases `count` is defined afterwards (never
null or undefined), and it is a number whenever the server-reported value
is a number or nullish — but not for other server-reported shapes. -/
theorem apiStore_count_after_resolution
    (server : Server) (id : String) (v : JsVal) (curr prev : Int) :
    (getCount server id = JsPromise.resolved v →
      apiGet server (JsVal.str id) (JsVal.num prev) =
        (ApiOutcome.resolved, jsNullish v (JsVal.num 0))) ∧
    (increaseCount server id curr = JsPromise.resolved v →
      apiIncrease server (JsVal.str id) (JsVal.num curr) (JsVal.num prev) =
        (ApiOutcome.resolved, jsNullish v (JsVal.num (prev + 1)))) ∧
    jsIsNullish (jsNullish v (JsVal.num 0)) = false ∧
    jsIsNullish (jsNullish v (JsVal.num (prev + 1))) = false ∧
    ((isNumber v || jsIsNullish v) = true →
      isNumber (jsNullish v (JsVal.num 0)) = true ∧
      isNumber (jsNullish v (JsVal.num (prev + 1))) = true) := by
  refine ⟨?_, ?_, ?_, ?_, ?_⟩
  · intro h
    simp [apiGet, h]
  · intro h
    simp [apiIncrease, h, jsAddOne]
  · cases v <;> simp [jsNullish, jsIsNullish]
  · cases v <;> simp [jsNullish, jsIsNullish]
  · cases v <;> simp [jsNullish, jsIsNullish, isNumber]

/-- C10 witness: the echoing mock server at id `"1"`, `curr = 2`,
`prev = 2`. -/
theorem apiStore_count_after_resolution_witness :
    getCount mockServer3 "1" = JsPromise.resolved (JsVal.num 3) ∧
    apiGet mockServer3 (JsVal.str "1") (JsVal.num 2) =
      (ApiOutcome.resolved, jsNullish (JsVal.num 3) (JsVal.num 0)) ∧
    increaseCount mockServer3 "1" 2 = JsPromise.resolved (JsVal.num 3) ∧
    apiIncrease mockServer3 (JsVal.str "1") (JsVal.num 2) (JsVal.num 2) =
      (ApiOutcome.resolved, jsNullish (JsVal.num 3) (JsVal.num (2 + 1))) ∧
    ((isNumber (JsVal.num 3) || jsIsNullish (JsVal.num 3)) = true) :=
  ⟨rfl,
   (apiStore_count_after_resolution mockServer3 "1" (JsVal.num 3) 2 2).1 rfl,
   rfl,
   (apiStore_count_after_resolution mockServer3 "1" (JsVal.num 3) 2 2).2.1 rfl,
   rfl⟩

end ZustandTest
